import Mathlib

/-!
Verification of the pysmhi forecast pipeline against its specification.

The Python sources are shallowly embedded: Python floats are modelled as
exact rationals (`ℚ`), timezone-aware datetimes as a wall-clock second
count plus a UTC offset, dicts as association lists, and exceptions as
`Except` values.  Code whose behaviour the claims exercise is translated
from `src/pysmhi/smhi.py` and `src/pysmhi/smhi_forecast.py`; parts of the
repository that are only visible through its tests are modelled from the
specification and marked as such in their doc comments.
-/

/-- A timezone-aware instant as parsed by `datetime.strptime(.., "%Y-%m-%dT%H:%M:%S%z")`:
`wall` is the number of seconds written on the wall clock (date and time fields
flattened to seconds), `offset` the UTC offset in seconds from the `%z` part. -/
structure PyTime where
  wall : Int
  offset : Int
deriving DecidableEq, Repr

/-- Absolute (UTC) seconds of an aware datetime; subtraction and comparison of
Python aware datetimes act on this value. -/
def PyTime.abs (t : PyTime) : Int := t.wall - t.offset

/-- The `.hour` attribute: the hour field of the wall clock. -/
def PyTime.hour (t : PyTime) : Int := t.wall % 86400 / 3600

/-- Seconds of `t1 - t2` between two aware datetimes (`.total_seconds()`). -/
def PyTime.delta (t1 t2 : PyTime) : Int := t1.abs - t2.abs

/-- Python `round(q)`: round half to even, as applied to an exact value.
`q.num / q.den` (Euclidean division) is the floor of `q`. -/
def pyRound (q : ℚ) : Int :=
  let f : Int := q.num / q.den
  let r := q - (f : ℚ)
  if r < 1/2 then f
  else if r > 1/2 then f + 1
  else if f % 2 = 0 then f else f + 1

/-- Python `round(q, 6)`: round half to even at the sixth decimal. -/
def pyRound6 (q : ℚ) : ℚ := (pyRound (q * 1000000) : ℚ) / 1000000

/-- Python `int(q)`: truncation toward zero. -/
def pyInt (q : ℚ) : Int := Int.tdiv q.num q.den

/-- One raw entry of the provider's `timeSeries`: the parsed `validTime` and
the parameter list flattened to (name, values[0]) pairs in list order. -/
structure RawEntry where
  validTime : PyTime
  params : List (String × ℚ)
deriving DecidableEq, Repr

/-- Lookup in the dict built by the comprehension over `parameters`:
a later pair with the same name overwrites an earlier one, so the value is
the last binding.  A missing key is a Python `KeyError`; the claims never
exercise one, and the model returns 0 there. -/
def dictLookup (ps : List (String × ℚ)) (n : String) : ℚ :=
  ((ps.reverse.find? (fun p => p.1 = n)).map Prod.snd).getD 0

/-- One normalized forecast record (`SMHIForecast` TypedDict, total=False):
`total_precipitation` is `none` while the key is absent, which is how the
normalizer leaves it — only the daily/bi-daily aggregation writes it. -/
structure SMHIForecast where
  temperature : ℚ
  temperature_max : ℚ
  temperature_min : ℚ
  humidity : Int
  pressure : ℚ
  thunder : Int
  total_cloud : Int
  low_cloud : Int
  medium_cloud : Int
  high_cloud : Int
  precipitation_category : Int
  wind_direction : Int
  wind_speed : ℚ
  visibility : ℚ
  wind_gust : ℚ
  min_precipitation : ℚ
  mean_precipitation : ℚ
  median_precipitation : ℚ
  max_precipitation : ℚ
  total_precipitation : Option ℚ
  frozen_precipitation : ℚ
  symbol : Int
  valid_time : PyTime

/-- The record built for one raw entry in `_create_forecast`'s loop body,
given the computed `hours_between_forecast`.  A zero divisor is a Python
`ZeroDivisionError`; over `ℚ` the division then yields 0. -/
def mkForecastRecord (e : RawEntry) (hoursBetween : Int) : SMHIForecast :=
  let look := dictLookup e.params
  { temperature := look "t"
    temperature_max := look "t"
    temperature_min := look "t"
    humidity := pyInt (look "r")
    pressure := look "msl"
    thunder := pyInt (look "tstm")
    total_cloud := pyRound (100 * look "tcc_mean" / 8)
    low_cloud := pyRound (100 * look "lcc_mean" / 8)
    medium_cloud := pyRound (100 * look "mcc_mean" / 8)
    high_cloud := pyRound (100 * look "hcc_mean" / 8)
    precipitation_category := pyInt (look "pcat")
    wind_direction := pyInt (look "wd")
    wind_speed := look "ws"
    visibility := look "vis"
    wind_gust := look "gust"
    min_precipitation := look "pmin" / (hoursBetween : ℚ)
    mean_precipitation := look "pmean" / (hoursBetween : ℚ)
    median_precipitation := look "pmedian" / (hoursBetween : ℚ)
    max_precipitation := look "pmax" / (hoursBetween : ℚ)
    total_precipitation := none
    frozen_precipitation := if look "spp" ≠ -9 then look "spp" else 0
    symbol := pyInt (look "Wsymb2")
    valid_time := e.validTime }

/-- Loop of `_create_forecast`, carrying the `previous_valid_time` cursor
(`none` before the first iteration). -/
def createForecastGo (prev : Option PyTime) : List RawEntry → List SMHIForecast
  | [] => []
  | e :: rest =>
    let hb : Int :=
      match prev with
      | some p => pyRound ((PyTime.delta e.validTime p : ℚ) / 3600)
      | none => 1
    mkForecastRecord e hb :: createForecastGo (some e.validTime) rest

/-- `_create_forecast(data)` restricted to the loop over `data["timeSeries"]`:
converts the raw entries to forecast records, one per entry, in order. -/
def _create_forecast (timeSeries : List RawEntry) : List SMHIForecast :=
  createForecastGo none timeSeries

/-- Python's `sorted(forecasts, key=lambda x: x["valid_time"])`: a stable sort
on the absolute time of `valid_time` (aware datetimes compare by UTC instant). -/
def sortForecasts (l : List SMHIForecast) : List SMHIForecast :=
  l.mergeSort (fun a b => decide (a.valid_time.abs ≤ b.valid_time.abs))

/-- Loop of `get_hourly_forecast` over `sorted_forecasts[1:]`, carrying
`previous_valid_time`: keep a record while its gap to the previous kept one is
exactly 3600 seconds, stop at the first other gap. -/
def hourlyGo (prev : PyTime) : List SMHIForecast → List SMHIForecast
  | [] => []
  | f :: rest =>
    if PyTime.delta f.valid_time prev = 3600 then
      f :: hourlyGo f.valid_time rest
    else []

/-- Body of `get_hourly_forecast` after sorting (`hourly_forecasts = [sorted[0]]`
then the walk).  Python raises `IndexError` on an empty list; the model returns
`[]` there, a case no caller reaches (the façade's guard requires a non-empty
series). -/
def get_hourly_from_sorted : List SMHIForecast → List SMHIForecast
  | [] => []
  | f :: rest => f :: hourlyGo f.valid_time rest

/-- Loop of `get_daily_forecast` over `sorted_forecasts[1:]`, carrying the
`pmean` accumulator: at local hour 12 emit a copy of the record with
`total_precipitation := sum(pmean)` and reset, otherwise append the record's
`mean_precipitation` to the accumulator. -/
def dailyGo (pmean : List ℚ) : List SMHIForecast → List SMHIForecast
  | [] => []
  | f :: rest =>
    if f.valid_time.hour = 12 then
      { f with total_precipitation := some pmean.sum } :: dailyGo [] rest
    else
      dailyGo (pmean ++ [f.mean_precipitation]) rest

/-- Body of `get_daily_forecast` after sorting (anchor then the hour-12 walk);
`[]` on empty input stands for Python's `IndexError`, unreachable via the façade. -/
def get_daily_from_sorted : List SMHIForecast → List SMHIForecast
  | [] => []
  | f :: rest => f :: dailyGo [] rest

/-- Loop of `get_bidaily_forecast` over `sorted_forecasts[1:]`: identical to
`dailyGo` except the boundary test is `hour in {12, 0}`. -/
def bidailyGo (pmean : List ℚ) : List SMHIForecast → List SMHIForecast
  | [] => []
  | f :: rest =>
    if f.valid_time.hour = 12 ∨ f.valid_time.hour = 0 then
      { f with total_precipitation := some pmean.sum } :: bidailyGo [] rest
    else
      bidailyGo (pmean ++ [f.mean_precipitation]) rest

/-- Body of `get_bidaily_forecast` after sorting. -/
def get_bidaily_from_sorted : List SMHIForecast → List SMHIForecast
  | [] => []
  | f :: rest => f :: bidailyGo [] rest

/-- `get_daily_forecast(data)`: normalize, sort by `valid_time`, aggregate. -/
def get_daily_forecast (timeSeries : List RawEntry) : List SMHIForecast :=
  get_daily_from_sorted (sortForecasts (_create_forecast timeSeries))

/-- `get_bidaily_forecast(data)`: normalize, sort by `valid_time`, aggregate. -/
def get_bidaily_forecast (timeSeries : List RawEntry) : List SMHIForecast :=
  get_bidaily_from_sorted (sortForecasts (_create_forecast timeSeries))

/-- `get_hourly_forecast(data)`: normalize, sort by `valid_time`, walk. -/
def get_hourly_forecast (timeSeries : List RawEntry) : List SMHIForecast :=
  get_hourly_from_sorted (sortForecasts (_create_forecast timeSeries))

/-- The JSON payload as the forecast code reads it: the `timeSeries` entries
and the `approvedTime` / `referenceTime` metadata strings.  An absent or
empty value is modelled as `""` (respectively `[]`), matching Python
truthiness of `data.get(..)`. -/
structure FCData where
  timeSeries : List RawEntry
  approvedTime : String
  referenceTime : String
deriving DecidableEq

/-- Message of the malformed-payload error. -/
def malformedMsg : String := "No time series, approved time or reference time in data"

/-- Modelled from the spec: the malformed-payload guard of `_create_forecast`
(spec §4.3), which is absent from the copy of `smhi_forecast.py` under `src/`
and visible only through the test suite.  The guard's polarity — it raises as
soon as ANY of `timeSeries`, `approvedTime`, `referenceTime` is missing or
empty — is pinned by `tests/test_smhi_forecast.py::test_malformed_data`, which
blanks only `referenceTime` of an otherwise complete payload and expects the
error; the spec's own wording (all three absent) contradicts that test and is
settled in claim C2. -/
def create_forecast_checked (d : FCData) : Except String (List SMHIForecast) :=
  if d.timeSeries = [] ∨ d.approvedTime = "" ∨ d.referenceTime = "" then
    .error malformedMsg
  else
    .ok (_create_forecast d.timeSeries)

/-- Decides whether an `Except` result is an error. -/
def exceptIsError {ε α : Type} : Except ε α → Bool
  | .error _ => true
  | .ok _ => false

/-- The spec's own wording of the malformed condition (§4.3): all three of the
series, the approved time and the reference time must be lacking to fail.
Kept beside `create_forecast_checked` so claim C2 can compare the two. -/
def malformedPerSpecWording (d : FCData) : Bool :=
  d.timeSeries = [] ∧ d.approvedTime = "" ∧ d.referenceTime = ""

/-- `SMHIError` raised by the fetch layer (`raise SMHIError from error` in
`smhi.py`): it carries the message of the exception it was raised from. -/
structure SMHIError where
  cause : String
deriving DecidableEq

/-- The domain-level error the façade surfaces (`SmhiForecastException`, the
spec's `ForecastError`): either the wrapper around a fetch-layer `SMHIError`
(`raise SmhiForecastException from error` in `smhi_forecast.py`), or the
malformed-payload error the normalizer's guard raises, which already is the
domain type. -/
inductive SmhiForecastError where
  | wrapped (cause : SMHIError)
  | malformed (msg : String)
deriving DecidableEq


/-- Outcome of one iteration of the `try` block of `SmhiAPI.async_get_data`:
the body ran to completion (`ok`); an exception was raised after the response
was bound to `resp` — a non-success status from `raise_for_status()` or a
body/decode failure (`httpError`); or the GET itself failed before `as resp`
could bind — a connection or timeout error raised while entering the context
manager (`transportError`). -/
inductive AttemptResult where
  | ok (d : FCData)
  | httpError (e : String)
  | transportError (e : String)

/-- What a `SmhiAPI.async_get_data` call raises: the `SMHIError` of
`raise SMHIError from error`, or the `UnboundLocalError` the except handler
itself raises at `src/pysmhi/smhi.py` line 39 — `LOGGER.debug` there reads
`resp.status`, and `resp` is unbound when the transport failed before binding
it, so the handler crashes with the original transport error chained as
context. -/
inductive FetchRaised where
  | smhiError (e : SMHIError)
  | unboundLocalError (context : String)
deriving DecidableEq

/-- Trace of one `async_get_data` call: how many times the transport was
invoked, the sleeps performed (seconds, one entry before each retry), and the
final outcome. -/
structure FetchTrace where
  attempts : Nat
  sleeps : List Nat
  result : Except FetchRaised FCData

/-- `SmhiAPI.async_get_data(url, retry)` from `src/pysmhi/smhi.py`: the
transport is a pure map from the attempt index (0-based) to that attempt's
outcome.  On an exception with `resp` bound (`httpError`) the handler logs
and, with `retry > 0`, sleeps 7 seconds and recurses with `retry - 1`; with
`retry == 0` it raises `SMHIError from error`.  On a transport failure the
handler's own `resp.status` access (line 39) raises `UnboundLocalError` at
once: one attempt, no sleep, no retry, and no `SMHIError`. -/
def async_get_data (transport : Nat → AttemptResult) : Nat → Nat → FetchTrace
  | attempt, retry =>
    match transport attempt with
    | .ok d => { attempts := 1, sleeps := [], result := .ok d }
    | .transportError e =>
      { attempts := 1, sleeps := [], result := .error (.unboundLocalError e) }
    | .httpError e =>
      match retry with
      | 0 => { attempts := 1, sleeps := [], result := .error (.smhiError { cause := e }) }
      | r + 1 =>
        let tr := async_get_data transport (attempt + 1) r
        { attempts := tr.attempts + 1, sleeps := 7 :: tr.sleeps, result := tr.result }

/-- `async_get_data` at its call sites: first attempt, default `retry=3`. -/
def fetchData (transport : Nat → AttemptResult) : FetchTrace :=
  async_get_data transport 0 3

/-- What a façade call raises: the domain `SmhiForecastException`
(`forecastError`), or the `UnboundLocalError` escaping from the fetch layer —
the façade's `except SMHIError` clause does not catch it, so it leaves the
façade unwrapped. -/
inductive FacadeRaised where
  | forecastError (e : SmhiForecastError)
  | unboundLocalError (context : String)
deriving DecidableEq

/-- Modelled from the spec: `async_get_daily_forecast` of the façade (§4.5)
composed with the normalizer guard.  The wrapping of the fetch result follows
`src/pysmhi/smhi_forecast.py` lines 98-106: `except SMHIError` wraps an
`SMHIError` as `SmhiForecastException from error`, but an `UnboundLocalError`
from the fetch layer does not match that clause and propagates unchanged; the
malformed branch comes from `create_forecast_checked`, whose guard is absent
from the copy under `src/` and whose error already is the domain type.  The
fetch outcome is passed in as an `Except` value. -/
def facade_daily (fetched : Except FetchRaised FCData) :
    Except FacadeRaised (List SMHIForecast) :=
  match fetched with
  | .error (.smhiError e) => .error (.forecastError (.wrapped e))
  | .error (.unboundLocalError ctx) => .error (.unboundLocalError ctx)
  | .ok d =>
    match create_forecast_checked d with
    | .error msg => .error (.forecastError (.malformed msg))
    | .ok fcs => .ok (get_daily_from_sorted (sortForecasts fcs))

/-- Modelled from the spec: `async_get_hourly_forecast` of the façade, the
same composition as `facade_daily` (`src/pysmhi/smhi_forecast.py` lines
108-116) with the hourly aggregation. -/
def facade_hourly (fetched : Except FetchRaised FCData) :
    Except FacadeRaised (List SMHIForecast) :=
  match fetched with
  | .error (.smhiError e) => .error (.forecastError (.wrapped e))
  | .error (.unboundLocalError ctx) => .error (.unboundLocalError ctx)
  | .ok d =>
    match create_forecast_checked d with
    | .error msg => .error (.forecastError (.malformed msg))
    | .ok fcs => .ok (get_hourly_from_sorted (sortForecasts fcs))

/-- Whether a façade outcome is an error of the domain type
(`SmhiForecastException`). -/
def raisedIsForecastException : Except FacadeRaised (List SMHIForecast) → Bool
  | .error (.forecastError _) => true
  | _ => false

/-- A rate-limit key: the canonical coordinate pair plus the forecast class. -/
structure FetchKey where
  longitude : String
  latitude : String
  forecastClass : String
deriving DecidableEq

/-- Modelled from the spec: the rate limiter's state (§3 `RateLimitState`,
§4.2), absent from the copy of the repository under `src/` and visible only
through `tests/test_smhi_forecast.py::test_ratelimiting` — the timestamp of
the last successful fetch per key, and the raw payload that fetch obtained. -/
structure RateLimitState where
  lastFetch : FetchKey → Option Int
  lastData : FetchKey → Option FCData

/-- Modelled from the spec: `shouldFetch(key, now)` (§4.2) — true, recording
`now`, exactly when no prior fetch is recorded for the key or
`now - lastFetch ≥ 60`; otherwise false with the state unchanged. -/
def shouldFetch (st : RateLimitState) (key : FetchKey) (now : Int) :
    Bool × RateLimitState :=
  match st.lastFetch key with
  | none =>
    (true, { st with lastFetch := fun k => if k = key then some now else st.lastFetch k })
  | some last =>
    if now - last ≥ 60 then
      (true, { st with lastFetch := fun k => if k = key then some now else st.lastFetch k })
    else
      (false, st)

/-- Modelled from the spec: one façade call seen from the rate limiter (§4.2,
§4.5): consult the gate; when it permits, invoke the Fetcher (whose fresh raw
series is `fresh`) and record the payload; otherwise reuse the most recently
obtained raw series for the key.  Returns (fetcher invoked?, payload used,
new state). -/
def facadeStep (st : RateLimitState) (key : FetchKey) (now : Int) (fresh : FCData) :
    Bool × Option FCData × RateLimitState :=
  let gate := shouldFetch st key now
  if gate.1 then
    (true, some fresh,
      { gate.2 with lastData := fun k => if k = key then some fresh else st.lastData k })
  else
    (false, st.lastData key, st)

/-- Coordinate canonicalization from `SMHIPointForecast.__init__`:
`str(round(float(coordinate), 6))`, the float modelled as the exact rational
value of the coordinate string. -/
def canonicalize (q : ℚ) : ℚ := pyRound6 q

/-- Whether a forecast list is sorted by `valid_time` (the order `sorted`
establishes and the aggregation walks assume). -/
def sortedByValidTime : List SMHIForecast → Bool
  | [] => true
  | [_] => true
  | a :: b :: rest =>
    decide (a.valid_time.abs ≤ b.valid_time.abs) && sortedByValidTime (b :: rest)

/-- The spec's closed form of `hoursBetween` for the i-th raw entry (§4.3
step 3): `round((this timestamp - previous entry timestamp) / 1 hour)`,
defaulting to 1 for the first entry.  Stated from the spec's words so claim C8
can compare it with the cursor-carrying loop of `_create_forecast`. -/
def hbFromOpts : Option RawEntry → Option RawEntry → Int
  | some pe, some e => pyRound ((PyTime.delta e.validTime pe.validTime : ℚ) / 3600)
  | _, _ => 1

/-- Rounded hour count between an optional previous cursor time and an
optional entry, defaulting to 1 when either is absent. -/
def hbFromCursor : Option PyTime → Option RawEntry → Int
  | some t, some e => pyRound ((PyTime.delta e.validTime t : ℚ) / 3600)
  | _, _ => 1

def specHoursBetween (raw : List RawEntry) : Nat → Int
  | 0 => 1
  | i + 1 => hbFromOpts raw[i]? raw[i + 1]?

/-- Sample raw entry: wall clock at hour 0 of its day, UTC. -/
def exEntryA : RawEntry :=
  { validTime := { wall := 0, offset := 0 },
    params := [("t", 5), ("pmin", 2), ("pmean", 3), ("pmedian", 4), ("pmax", 6)] }

/-- Sample raw entry three hours after `exEntryA`. -/
def exEntryB : RawEntry :=
  { validTime := { wall := 10800, offset := 0 },
    params := [("t", 7), ("pmin", 3), ("pmean", 6), ("pmedian", 9), ("pmax", 12)] }

/-- Sample well-formed payload. -/
def exPayload : FCData :=
  { timeSeries := [exEntryA], approvedTime := "a", referenceTime := "r" }

/-- Sample payload that blanks only `referenceTime`, as
`test_malformed_data` does. -/
def exMalformedPayload : FCData :=
  { timeSeries := [exEntryA], approvedTime := "2025-01-20T18:00:00Z", referenceTime := "" }

/-- Sample normalized record at local hour `h` with the given
`mean_precipitation`, every other numeric field zero. -/
def exRec (h : Int) (pm : ℚ) : SMHIForecast :=
  { temperature := 0, temperature_max := 0, temperature_min := 0, humidity := 0,
    pressure := 0, thunder := 0, total_cloud := 0, low_cloud := 0, medium_cloud := 0,
    high_cloud := 0, precipitation_category := 0, wind_direction := 0, wind_speed := 0,
    visibility := 0, wind_gust := 0, min_precipitation := 0, mean_precipitation := pm,
    median_precipitation := 0, max_precipitation := 0, total_precipitation := none,
    frozen_precipitation := 0, symbol := 0, valid_time := { wall := h * 3600, offset := 0 } }

/-- Every record the normalizer's loop emits is some `mkForecastRecord`. -/
lemma mem_createForecastGo {prev : Option PyTime} {raw : List RawEntry}
    {r : SMHIForecast} (hr : r ∈ createForecastGo prev raw) :
    ∃ e hb, r = mkForecastRecord e hb := by
  induction raw generalizing prev with
  | nil => simp [createForecastGo] at hr
  | cons e rest ih =>
    simp only [createForecastGo, List.mem_cons] at hr
    rcases hr with h | h
    · exact ⟨e, _, h⟩
    · exact ih h

/-- C10: every record produced by the normalizer has
`temperature_max = temperature_min = temperature` — all three are populated
from the raw parameter `"t"`, so no normalized record has distinct
per-instant max/min temperatures. -/
theorem temperature_fields_all_equal (raw : List RawEntry) (r : SMHIForecast)
    (hr : r ∈ _create_forecast raw) :
    r.temperature_max = r.temperature ∧ r.temperature_min = r.temperature := by
  obtain ⟨e, hb, rfl⟩ := mem_createForecastGo hr
  exact ⟨rfl, rfl⟩

/-- Witness for C10 at a concrete one-entry series. -/
theorem temperature_fields_all_equal_witness :
    (mkForecastRecord exEntryA 1).temperature_max = (mkForecastRecord exEntryA 1).temperature ∧
    (mkForecastRecord exEntryA 1).temperature_min = (mkForecastRecord exEntryA 1).temperature :=
  temperature_fields_all_equal [exEntryA] (mkForecastRecord exEntryA 1)
    (List.mem_singleton.mpr rfl)

/-- Rounding an integer value is the identity. -/
lemma pyRound_intCast (n : ℤ) : pyRound (n : ℚ) = n := by
  norm_num [pyRound]

/-- Evaluation rule for `pyRound` strictly below the midpoint. -/
lemma pyRound_eq_of_lt_half (q : ℚ) (n : ℤ) (h1 : (n : ℚ) ≤ q) (h3 : q - n < 1/2) :
    pyRound q = n := by
  have hf : q.num / q.den = n := by
    rw [← Rat.floor_def]
    exact Int.floor_eq_iff.mpr ⟨h1, by linarith⟩
  unfold pyRound
  rw [hf, if_pos h3]

/-- Evaluation rule for `pyRound` strictly above the midpoint. -/
lemma pyRound_eq_of_gt_half (q : ℚ) (n : ℤ) (h1 : (n : ℚ) ≤ q) (h2 : q < n + 1)
    (h3 : 1/2 < q - n) : pyRound q = n + 1 := by
  have hf : q.num / q.den = n := by
    rw [← Rat.floor_def]
    exact Int.floor_eq_iff.mpr ⟨h1, h2⟩
  unfold pyRound
  rw [hf, if_neg (by linarith), if_pos h3]

/-- C9: coordinate canonicalization rounds (it does not truncate) to six
decimal digits and is idempotent: canonicalizing twice equals canonicalizing
once, `16.1234567` canonicalizes to `16.123457` (not to the truncation
`16.123456`), and re-canonicalizing `16.123457` returns it unchanged. -/
theorem canonicalize_rounds_and_idempotent :
    (∀ q : ℚ, canonicalize (canonicalize q) = canonicalize q) ∧
    canonicalize (16.1234567 : ℚ) = (16.123457 : ℚ) ∧
    canonicalize (16.123457 : ℚ) = (16.123457 : ℚ) ∧
    canonicalize (16.1234567 : ℚ) ≠ (16.123456 : ℚ) := by
  refine ⟨?_, ?_, ?_, ?_⟩
  · intro q
    unfold canonicalize pyRound6
    rw [div_mul_cancel₀ _ (by norm_num : (1000000 : ℚ) ≠ 0), pyRound_intCast]
  · unfold canonicalize pyRound6
    rw [pyRound_eq_of_gt_half (16.1234567 * 1000000) 16123456 (by norm_num) (by norm_num)
      (by norm_num)]
    norm_num
  · unfold canonicalize pyRound6
    rw [show (16.123457 * 1000000 : ℚ) = ((16123457 : ℤ) : ℚ) by norm_num, pyRound_intCast]
    norm_num
  · unfold canonicalize pyRound6
    rw [pyRound_eq_of_gt_half (16.1234567 * 1000000) 16123456 (by norm_num) (by norm_num)
      (by norm_num)]
    norm_num

/-- Counterexample to C2: a payload with a non-empty time series and a
non-empty approved time whose reference time alone is blank DOES raise the
malformed-payload error, where the claim says it must not (this is the exact
scenario of `test_malformed_data`). -/
theorem malformed_only_referenceTime_raises :
    exMalformedPayload.approvedTime ≠ "" ∧ exMalformedPayload.timeSeries ≠ [] ∧
    create_forecast_checked exMalformedPayload = .error malformedMsg := by
  refine ⟨by decide, by simp [exMalformedPayload], rfl⟩

/-- C2 (amended): the normalizer fails with the malformed-payload error
exactly when ANY of the time series, the approved time or the reference time
is missing or empty — not only when all three are. -/
theorem malformed_iff_any_missing (d : FCData) :
    exceptIsError (create_forecast_checked d) = true ↔
      d.timeSeries = [] ∨ d.approvedTime = "" ∨ d.referenceTime = "" := by
  by_cases h : d.timeSeries = [] ∨ d.approvedTime = "" ∨ d.referenceTime = ""
  · simp [create_forecast_checked, h, exceptIsError]
  · simp [create_forecast_checked, h, exceptIsError]

/-- C1: one façade call through the rate-limiter gate: the Fetcher is invoked
iff no prior successful fetch is recorded for the key or at least 60 seconds
passed since it; when it fetches, `now` is recorded as the key's last-fetch
time (and the fresh payload is used and cached); when it does not, the most
recently obtained raw series for the key is reused and the state is kept. -/
theorem rateLimiter_fetch_iff_cooldown (st : RateLimitState) (key : FetchKey)
    (now : Int) (fresh : FCData) :
    ((facadeStep st key now fresh).1 = true ↔
      st.lastFetch key = none ∨ ∃ last, st.lastFetch key = some last ∧ now - last ≥ 60) ∧
    ((facadeStep st key now fresh).1 = true →
      (facadeStep st key now fresh).2.2.lastFetch key = some now ∧
      (facadeStep st key now fresh).2.1 = some fresh ∧
      (facadeStep st key now fresh).2.2.lastData key = some fresh) ∧
    ((facadeStep st key now fresh).1 = false →
      (facadeStep st key now fresh).2.1 = st.lastData key ∧
      (facadeStep st key now fresh).2.2.lastFetch key = st.lastFetch key ∧
      (facadeStep st key now fresh).2.2.lastData key = st.lastData key) := by
  rcases h : st.lastFetch key with _ | last
  · simp [facadeStep, shouldFetch, h]
  · by_cases hge : now - last ≥ 60
    · simp [facadeStep, shouldFetch, h, hge]
    · simp [facadeStep, shouldFetch, h, hge]

/-- C3 (amended): every fetch-layer `SMHIError` surfaces from the daily and
hourly façades wrapped as the domain error with the original error as its
cause, every malformed-payload failure surfaces as the domain error carrying
its message, and a façade succeeds only when no internal error occurred
(nothing is silently swallowed); but not every internal error is wrapped: the
`UnboundLocalError` a transport failure provokes in the fetch handler passes
through both façades unchanged, since `except SMHIError` does not catch it. -/
theorem facade_wraps_internal_errors (fetched : Except FetchRaised FCData) :
    (∀ e, fetched = .error (.smhiError e) →
      facade_daily fetched = .error (.forecastError (.wrapped e)) ∧
      facade_hourly fetched = .error (.forecastError (.wrapped e))) ∧
    (∀ d msg, fetched = .ok d → create_forecast_checked d = .error msg →
      facade_daily fetched = .error (.forecastError (.malformed msg)) ∧
      facade_hourly fetched = .error (.forecastError (.malformed msg))) ∧
    (∀ ctx, fetched = .error (.unboundLocalError ctx) →
      facade_daily fetched = .error (.unboundLocalError ctx) ∧
      facade_hourly fetched = .error (.unboundLocalError ctx)) ∧
    (∀ r, facade_daily fetched = .ok r →
      ∃ d fcs, fetched = .ok d ∧ create_forecast_checked d = .ok fcs ∧
        r = get_daily_from_sorted (sortForecasts fcs)) ∧
    (∀ r, facade_hourly fetched = .ok r →
      ∃ d fcs, fetched = .ok d ∧ create_forecast_checked d = .ok fcs ∧
        r = get_hourly_from_sorted (sortForecasts fcs)) := by
  refine ⟨?_, ?_, ?_, ?_, ?_⟩
  · rintro e rfl
    exact ⟨rfl, rfl⟩
  · rintro d msg rfl h
    exact ⟨by simp [facade_daily, h], by simp [facade_hourly, h]⟩
  · rintro ctx rfl
    exact ⟨rfl, rfl⟩
  · intro r h
    cases fetched with
    | error e => cases e <;> simp [facade_daily] at h
    | ok d =>
      cases hc : create_forecast_checked d with
      | error m => simp [facade_daily, hc] at h
      | ok fcs =>
        simp only [facade_daily, hc] at h
        exact ⟨d, fcs, rfl, hc, (Except.ok.injEq _ _).mp h |>.symm⟩
  · intro r h
    cases fetched with
    | error e => cases e <;> simp [facade_hourly] at h
    | ok d =>
      cases hc : create_forecast_checked d with
      | error m => simp [facade_hourly, hc] at h
      | ok fcs =>
        simp only [facade_hourly, hc] at h
        exact ⟨d, fcs, rfl, hc, (Except.ok.injEq _ _).mp h |>.symm⟩

/-- Witness for C3: a fetch-layer `SMHIError` surfaces wrapped from both
façades, and the malformed payload of C2's scenario surfaces as the malformed
domain error. -/
theorem facade_wraps_internal_errors_witness :
    (facade_daily (.error (.smhiError { cause := "timeout" })) =
        .error (.forecastError (.wrapped { cause := "timeout" })) ∧
      facade_hourly (.error (.smhiError { cause := "timeout" })) =
        .error (.forecastError (.wrapped { cause := "timeout" }))) ∧
    (facade_daily (.ok exMalformedPayload) =
        .error (.forecastError (.malformed malformedMsg)) ∧
      facade_hourly (.ok exMalformedPayload) =
        .error (.forecastError (.malformed malformedMsg))) :=
  ⟨(facade_wraps_internal_errors (.error (.smhiError { cause := "timeout" }))).1 _ rfl,
   (facade_wraps_internal_errors (.ok exMalformedPayload)).2.1 exMalformedPayload
     malformedMsg rfl rfl⟩

/-- Transport whose first three attempts fail at the transport level
(connection refused, so `resp` never binds) and whose fourth would succeed. -/
def exTransportCrash : Nat → AttemptResult :=
  fun i => if i < 3 then .transportError "connection refused" else .ok exPayload

/-- Counterexample to C3: the `UnboundLocalError` provoked by a transport
failure in the fetch layer (here the fetch of `exTransportCrash`, which
crashes on its first attempt) escapes the façade as itself, not as a
`SmhiForecastException`: an internal error escapes unwrapped. -/
theorem facade_unbound_escapes_counterexample :
    facade_daily (fetchData exTransportCrash).result =
      .error (.unboundLocalError "connection refused") ∧
    raisedIsForecastException (facade_daily (fetchData exTransportCrash).result) = false :=
  ⟨rfl, rfl⟩

/-- `async_get_data` only consults the transport on attempts
`attempt .. attempt + retry`. -/
lemma async_get_data_congr (retry : Nat) :
    ∀ (attempt : Nat) (t1 t2 : Nat → AttemptResult),
      (∀ i, attempt ≤ i → i ≤ attempt + retry → t1 i = t2 i) →
      async_get_data t1 attempt retry = async_get_data t2 attempt retry := by
  induction retry with
  | zero =>
    intro attempt t1 t2 h
    unfold async_get_data
    rw [h attempt (Nat.le_refl _) (by omega)]
  | succ r ih =>
    intro attempt t1 t2 h
    unfold async_get_data
    rw [h attempt (Nat.le_refl _) (by omega)]
    cases t2 attempt with
    | ok d => rfl
    | transportError e => rfl
    | httpError e =>
      simp only
      rw [ih (attempt + 1) t1 t2 (fun i h1 h2 => h i (by omega) (by omega))]

/-- C4 (amended): with the default `retry=3`, a transport failing its first
three attempts with errors raised after the response is bound (HTTP error
statuses) and succeeding on the fourth yields the successful result after
exactly 4 attempts with a 7-second sleep before each of the 3 retries; four
consecutive such failures yield an `SMHIError` carrying the last failure as
its cause, again after exactly 4 attempts and 3 sleeps; a transport-level
failure on the first attempt is not retried at all — the except handler's
`resp.status` access raises `UnboundLocalError` after exactly 1 attempt with
no sleep and no `SMHIError`; and the outcome never depends on the transport
beyond the first 4 attempts (no 5th attempt is made). -/
theorem fetch_retry_four_attempts (transport : Nat → AttemptResult)
    (v : FCData) (e0 e1 e2 e3 : String) :
    (transport 0 = .httpError e0 → transport 1 = .httpError e1 →
      transport 2 = .httpError e2 → transport 3 = .ok v →
      fetchData transport = { attempts := 4, sleeps := [7, 7, 7], result := .ok v }) ∧
    (transport 0 = .httpError e0 → transport 1 = .httpError e1 →
      transport 2 = .httpError e2 → transport 3 = .httpError e3 →
      fetchData transport =
        { attempts := 4, sleeps := [7, 7, 7],
          result := .error (.smhiError { cause := e3 }) }) ∧
    (transport 0 = .transportError e0 →
      fetchData transport =
        { attempts := 1, sleeps := [], result := .error (.unboundLocalError e0) }) ∧
    (∀ transport2 : Nat → AttemptResult,
      (∀ i, i < 4 → transport i = transport2 i) →
      fetchData transport = fetchData transport2) := by
  refine ⟨?_, ?_, ?_, ?_⟩
  · intro h0 h1 h2 h3
    unfold fetchData async_get_data
    rw [h0]
    unfold async_get_data
    rw [h1]
    unfold async_get_data
    rw [h2]
    unfold async_get_data
    rw [h3]
  · intro h0 h1 h2 h3
    unfold fetchData async_get_data
    rw [h0]
    unfold async_get_data
    rw [h1]
    unfold async_get_data
    rw [h2]
    unfold async_get_data
    rw [h3]
  · intro h0
    unfold fetchData async_get_data
    rw [h0]
  · intro t2 h
    exact async_get_data_congr 3 0 transport t2 (fun i _ h2 => h i (by omega))

/-- Counterexample to C4: on a transport whose first three attempts fail at
the transport level and whose fourth would succeed, the program does not
return the successful result after 4 attempts — it makes exactly one attempt,
sleeps never, and raises `UnboundLocalError` instead of retrying or raising
`SMHIError`. -/
theorem fetch_transport_crash_counterexample :
    fetchData exTransportCrash =
      { attempts := 1, sleeps := [],
        result := .error (.unboundLocalError "connection refused") } ∧
    fetchData exTransportCrash ≠
      { attempts := 4, sleeps := [7, 7, 7], result := .ok exPayload } := by
  refine ⟨rfl, ?_⟩
  intro h
  have h4 := congrArg FetchTrace.attempts h
  have h1 : (fetchData exTransportCrash).attempts = 1 := rfl
  rw [h1] at h4
  exact absurd h4 (by decide)

/-- Transport whose first three attempts fail with HTTP error statuses and
which succeeds afterwards. -/
def exTransportRecover : Nat → AttemptResult :=
  fun i => if i < 3 then .httpError "boom" else .ok exPayload

/-- Transport that always fails with an HTTP error status. -/
def exTransportFail : Nat → AttemptResult :=
  fun _ => .httpError "boom"

/-- Witness for C4 on three concrete transports. -/
theorem fetch_retry_four_attempts_witness :
    fetchData exTransportRecover =
      { attempts := 4, sleeps := [7, 7, 7], result := .ok exPayload } ∧
    fetchData exTransportFail =
      { attempts := 4, sleeps := [7, 7, 7],
        result := .error (.smhiError { cause := "boom" }) } ∧
    fetchData exTransportCrash =
      { attempts := 1, sleeps := [],
        result := .error (.unboundLocalError "connection refused") } :=
  ⟨(fetch_retry_four_attempts exTransportRecover exPayload "boom" "boom" "boom" "boom").1
      rfl rfl rfl rfl,
   (fetch_retry_four_attempts exTransportFail exPayload "boom" "boom" "boom" "boom").2.1
      rfl rfl rfl rfl,
   (fetch_retry_four_attempts exTransportCrash exPayload "connection refused" "x" "x" "x").2.2.1
      rfl⟩

/-- The daily walk emits one record per hour-12 record. -/
lemma dailyGo_length (m : List SMHIForecast) :
    ∀ acc, (dailyGo acc m).length = m.countP (fun f => decide (f.valid_time.hour = 12)) := by
  induction m with
  | nil => intro acc; simp [dailyGo]
  | cons f rest ih =>
    intro acc
    by_cases h : f.valid_time.hour = 12 <;>
      simp [dailyGo, h, List.countP_cons, ih]

/-- The daily walk's emissions carry the boundary records' timestamps in
encounter order. -/
lemma dailyGo_map_valid (m : List SMHIForecast) :
    ∀ acc, (dailyGo acc m).map SMHIForecast.valid_time =
      (m.filter (fun f => decide (f.valid_time.hour = 12))).map SMHIForecast.valid_time := by
  induction m with
  | nil => intro acc; simp [dailyGo]
  | cons f rest ih =>
    intro acc
    by_cases h : f.valid_time.hour = 12 <;>
      simp [dailyGo, h, List.filter_cons, ih]

/-- The bi-daily walk emits one record per hour-12-or-0 record. -/
lemma bidailyGo_length (m : List SMHIForecast) :
    ∀ acc, (bidailyGo acc m).length =
      m.countP (fun f => decide (f.valid_time.hour = 12 ∨ f.valid_time.hour = 0)) := by
  induction m with
  | nil => intro acc; simp [bidailyGo]
  | cons f rest ih =>
    intro acc
    by_cases h : f.valid_time.hour = 12 ∨ f.valid_time.hour = 0 <;>
      simp [bidailyGo, h, List.countP_cons, ih]

/-- The bi-daily walk's emissions carry the boundary records' timestamps in
encounter order. -/
lemma bidailyGo_map_valid (m : List SMHIForecast) :
    ∀ acc, (bidailyGo acc m).map SMHIForecast.valid_time =
      (m.filter (fun f => decide (f.valid_time.hour = 12 ∨ f.valid_time.hour = 0))).map
        SMHIForecast.valid_time := by
  induction m with
  | nil => intro acc; simp [bidailyGo]
  | cons f rest ih =>
    intro acc
    by_cases h : f.valid_time.hour = 12 ∨ f.valid_time.hour = 0 <;>
      simp [bidailyGo, h, List.filter_cons, ih]

/-- C6: on a non-empty sorted sequence, the daily aggregation (and the
bi-daily one with boundary hours 12 and 0) starts with the first record
unmodified, contains exactly 1 plus the number of boundary-hour records after
the anchor, and emits them in encounter order (their timestamps are those of
the boundary records, in order). -/
theorem daily_anchor_and_emission_count (l : List SMHIForecast) (hne : l ≠ [])
    (hs : sortedByValidTime l = true) :
    (get_daily_from_sorted l).head? = l.head? ∧
    (get_daily_from_sorted l).length =
      1 + l.tail.countP (fun f => decide (f.valid_time.hour = 12)) ∧
    (get_daily_from_sorted l).tail.map SMHIForecast.valid_time =
      (l.tail.filter (fun f => decide (f.valid_time.hour = 12))).map
        SMHIForecast.valid_time ∧
    (get_bidaily_from_sorted l).head? = l.head? ∧
    (get_bidaily_from_sorted l).length =
      1 + l.tail.countP (fun f => decide (f.valid_time.hour = 12 ∨ f.valid_time.hour = 0)) ∧
    (get_bidaily_from_sorted l).tail.map SMHIForecast.valid_time =
      (l.tail.filter
        (fun f => decide (f.valid_time.hour = 12 ∨ f.valid_time.hour = 0))).map
        SMHIForecast.valid_time := by
  cases l with
  | nil => exact absurd rfl hne
  | cons f rest =>
    refine ⟨rfl, ?_, ?_, rfl, ?_, ?_⟩
    · simp [get_daily_from_sorted, dailyGo_length, Nat.add_comm]
    · simp [get_daily_from_sorted, dailyGo_map_valid]
    · simp [get_bidaily_from_sorted, bidailyGo_length, Nat.add_comm]
    · simp [get_bidaily_from_sorted, bidailyGo_map_valid]

/-- Sample sorted three-record sequence with one hour-12 record. -/
def exListC6 : List SMHIForecast := [exRec 10 1, exRec 11 2, exRec 12 3]

/-- Witness for C6 on a concrete sorted sequence. -/
theorem daily_anchor_and_emission_count_witness :
    (get_daily_from_sorted exListC6).head? = exListC6.head? ∧
    (get_daily_from_sorted exListC6).length =
      1 + exListC6.tail.countP (fun f => decide (f.valid_time.hour = 12)) ∧
    (get_daily_from_sorted exListC6).tail.map SMHIForecast.valid_time =
      (exListC6.tail.filter (fun f => decide (f.valid_time.hour = 12))).map
        SMHIForecast.valid_time ∧
    (get_bidaily_from_sorted exListC6).head? = exListC6.head? ∧
    (get_bidaily_from_sorted exListC6).length =
      1 + exListC6.tail.countP
        (fun f => decide (f.valid_time.hour = 12 ∨ f.valid_time.hour = 0)) ∧
    (get_bidaily_from_sorted exListC6).tail.map SMHIForecast.valid_time =
      (exListC6.tail.filter
        (fun f => decide (f.valid_time.hour = 12 ∨ f.valid_time.hour = 0))).map
        SMHIForecast.valid_time :=
  daily_anchor_and_emission_count exListC6 (by simp [exListC6]) (by decide)

/-- C7: in the daily walk (and the bi-daily walk with boundary hours 12 and
0), the record emitted at the first boundary record is a field-for-field copy
of it except that `total_precipitation` is the sum, in encounter order, of
the accumulator passed in followed by the `mean_precipitation` of the
non-boundary records skipped before it (the emitted record's own
`mean_precipitation` is not included), and the walk continues with the
accumulator reset to empty. -/
theorem boundary_emission_precipitation_sum (acc : List ℚ) (pre : List SMHIForecast)
    (b : SMHIForecast) (rest : List SMHIForecast) :
    ((∀ f ∈ pre, f.valid_time.hour ≠ 12) → b.valid_time.hour = 12 →
      dailyGo acc (pre ++ b :: rest) =
        { b with
            total_precipitation :=
              some ((acc ++ pre.map SMHIForecast.mean_precipitation).sum) } ::
          dailyGo [] rest) ∧
    ((∀ f ∈ pre, ¬(f.valid_time.hour = 12 ∨ f.valid_time.hour = 0)) →
      (b.valid_time.hour = 12 ∨ b.valid_time.hour = 0) →
      bidailyGo acc (pre ++ b :: rest) =
        { b with
            total_precipitation :=
              some ((acc ++ pre.map SMHIForecast.mean_precipitation).sum) } ::
          bidailyGo [] rest) := by
  constructor
  · induction pre generalizing acc with
    | nil =>
      intro _ hb
      simp [dailyGo, hb]
    | cons f pre ih =>
      intro hpre hb
      have hf : ¬f.valid_time.hour = 12 := hpre f (List.mem_cons_self f pre)
      have step : dailyGo acc ((f :: pre) ++ b :: rest) =
          dailyGo (acc ++ [f.mean_precipitation]) (pre ++ b :: rest) := by
        simp [dailyGo, hf]
      rw [step, ih (acc ++ [f.mean_precipitation])
        (fun g hg => hpre g (List.mem_cons_of_mem f hg)) hb]
      simp
  · induction pre generalizing acc with
    | nil =>
      intro _ hb
      simp [bidailyGo, hb]
    | cons f pre ih =>
      intro hpre hb
      have hf : ¬(f.valid_time.hour = 12 ∨ f.valid_time.hour = 0) :=
        hpre f (List.mem_cons_self f pre)
      have step : bidailyGo acc ((f :: pre) ++ b :: rest) =
          bidailyGo (acc ++ [f.mean_precipitation]) (pre ++ b :: rest) := by
        simp [bidailyGo, hf]
      rw [step, ih (acc ++ [f.mean_precipitation])
        (fun g hg => hpre g (List.mem_cons_of_mem f hg)) hb]
      simp

/-- Witness for C7: a concrete walk with accumulator `[5]`, two skipped
records of mean precipitation 1 and 2, and the boundary record at hour 12. -/
theorem boundary_emission_precipitation_sum_witness :
    dailyGo [5] ([exRec 10 1, exRec 11 2] ++ exRec 12 3 :: []) =
      { exRec 12 3 with
          total_precipitation :=
            some (([5] ++ [exRec 10 1, exRec 11 2].map SMHIForecast.mean_precipitation).sum) } ::
        dailyGo [] [] ∧
    bidailyGo [5] ([exRec 10 1, exRec 11 2] ++ exRec 12 3 :: []) =
      { exRec 12 3 with
          total_precipitation :=
            some (([5] ++ [exRec 10 1, exRec 11 2].map SMHIForecast.mean_precipitation).sum) } ::
        bidailyGo [] [] :=
  ⟨(boundary_emission_precipitation_sum [5] [exRec 10 1, exRec 11 2] (exRec 12 3) []).1
      (by decide) (by decide),
   (boundary_emission_precipitation_sum [5] [exRec 10 1, exRec 11 2] (exRec 12 3) []).2
      (by decide) (by decide)⟩

/-- The hourly walk returns a prefix of its input. -/
lemma hourlyGo_take (m : List SMHIForecast) :
    ∀ prev, ∃ k, hourlyGo prev m = m.take k := by
  induction m with
  | nil => intro prev; exact ⟨0, rfl⟩
  | cons f rest ih =>
    intro prev
    by_cases h : PyTime.delta f.valid_time prev = 3600
    · obtain ⟨k, hk⟩ := ih f.valid_time
      exact ⟨k + 1, by simp [hourlyGo, h, hk]⟩
    · exact ⟨0, by simp [hourlyGo, h]⟩

/-- Consecutive records kept by the hourly walk are exactly one hour apart,
including the gap from the record the walk started after. -/
lemma hourlyGo_chain (m : List SMHIForecast) :
    ∀ prevRec : SMHIForecast,
      List.Chain' (fun a b => PyTime.delta b.valid_time a.valid_time = 3600)
        (prevRec :: hourlyGo prevRec.valid_time m) := by
  induction m with
  | nil => intro prevRec; simp [hourlyGo]
  | cons f rest ih =>
    intro prevRec
    by_cases h : PyTime.delta f.valid_time prevRec.valid_time = 3600
    · have hred : hourlyGo prevRec.valid_time (f :: rest) = f :: hourlyGo f.valid_time rest := by
        simp [hourlyGo, h]
      rw [hred]
      exact List.chain'_cons.mpr ⟨h, ih f⟩
    · have hred : hourlyGo prevRec.valid_time (f :: rest) = [] := by
        simp [hourlyGo, h]
      rw [hred]
      simp

/-- The hourly walk stops only at a gap that is not one hour: whatever
follows the kept run is not one hour after the last kept record. -/
lemma hourlyGo_maximal (m : List SMHIForecast) :
    ∀ (prevRec x : SMHIForecast) (xs : List SMHIForecast) (lastR : SMHIForecast),
      m.drop (hourlyGo prevRec.valid_time m).length = x :: xs →
      (prevRec :: hourlyGo prevRec.valid_time m).getLast? = some lastR →
      PyTime.delta x.valid_time lastR.valid_time ≠ 3600 := by
  induction m with
  | nil => intro prevRec x xs lastR hd _; simp [hourlyGo] at hd
  | cons f rest ih =>
    intro prevRec x xs lastR hd hl
    by_cases h : PyTime.delta f.valid_time prevRec.valid_time = 3600
    · have hred : hourlyGo prevRec.valid_time (f :: rest) = f :: hourlyGo f.valid_time rest := by
        simp [hourlyGo, h]
      rw [hred] at hd hl
      rw [List.length_cons, List.drop_succ_cons] at hd
      rw [List.getLast?_cons_cons] at hl
      exact ih f x xs lastR hd hl
    · have hred : hourlyGo prevRec.valid_time (f :: rest) = [] := by
        simp [hourlyGo, h]
      rw [hred] at hd hl
      simp only [List.length_nil, List.drop_zero] at hd
      injection hd with h1 h2
      subst h1
      simp only [List.getLast?_singleton, Option.some.injEq] at hl
      subst hl
      exact h

/-- C5: on a non-empty sorted sequence the hourly aggregation is the maximal
leading run with exactly one hour between consecutive kept records: it is a
non-empty prefix of the input, every consecutive pair inside it is 3600
seconds apart, and whenever the input continues past it, the next record is
not 3600 seconds after the last kept one (the walk stops there instead of
skipping), so the output is always a contiguous leading run. -/
theorem hourly_is_maximal_leading_run (l : List SMHIForecast) (hne : l ≠ [])
    (hs : sortedByValidTime l = true) :
    (∃ k, 1 ≤ k ∧ get_hourly_from_sorted l = l.take k) ∧
    List.Chain' (fun a b => PyTime.delta b.valid_time a.valid_time = 3600)
      (get_hourly_from_sorted l) ∧
    (∀ x xs lastR, l.drop (get_hourly_from_sorted l).length = x :: xs →
      (get_hourly_from_sorted l).getLast? = some lastR →
      PyTime.delta x.valid_time lastR.valid_time ≠ 3600) := by
  cases l with
  | nil => exact absurd rfl hne
  | cons f rest =>
    refine ⟨?_, ?_, ?_⟩
    · obtain ⟨k, hk⟩ := hourlyGo_take rest f.valid_time
      exact ⟨k + 1, Nat.succ_le_succ (Nat.zero_le k),
        by simp [get_hourly_from_sorted, hk]⟩
    · exact hourlyGo_chain rest f
    · intro x xs lastR hd hl
      rw [show get_hourly_from_sorted (f :: rest) = f :: hourlyGo f.valid_time rest
        from rfl, List.length_cons, List.drop_succ_cons] at hd
      exact hourlyGo_maximal rest f x xs lastR hd hl

/-- Sample sorted sequence whose 1-hour run breaks after two records. -/
def exListC5 : List SMHIForecast := [exRec 1 0, exRec 2 0, exRec 4 0]

/-- Witness for C5 on a concrete sequence with a 2-hour gap at position 2. -/
theorem hourly_is_maximal_leading_run_witness :
    (∃ k, 1 ≤ k ∧ get_hourly_from_sorted exListC5 = exListC5.take k) ∧
    List.Chain' (fun a b => PyTime.delta b.valid_time a.valid_time = 3600)
      (get_hourly_from_sorted exListC5) ∧
    (∀ x xs lastR, exListC5.drop (get_hourly_from_sorted exListC5).length = x :: xs →
      (get_hourly_from_sorted exListC5).getLast? = some lastR →
      PyTime.delta x.valid_time lastR.valid_time ≠ 3600) :=
  hourly_is_maximal_leading_run exListC5 (by simp [exListC5]) (by decide)

/-- The divisor `_create_forecast` uses for the i-th entry of `raw` when the
loop enters with cursor `p`: for the first entry it comes from `p` (1 when
`p` is `none`), afterwards from the previous entry's parsed timestamp. -/
def hbAux (p : Option PyTime) (raw : List RawEntry) : Nat → Int
  | 0 => hbFromCursor p raw[0]?
  | i + 1 => hbFromOpts raw[i]? raw[i + 1]?

/-- Shifting `hbAux` across a cons cell. -/
lemma hbAux_cons (e0 : RawEntry) (rest : List RawEntry) (p : Option PyTime) (i : Nat) :
    hbAux (some e0.validTime) rest i = hbAux p (e0 :: rest) (i + 1) := by
  cases i with
  | zero =>
    simp only [hbAux, List.getElem?_cons_zero, List.getElem?_cons_succ]
    cases p <;> cases hr : rest[0]? <;> rfl
  | succ j =>
    simp only [hbAux, List.getElem?_cons_succ]

/-- With no incoming cursor, `hbAux` is the spec's `hoursBetween`. -/
lemma hbAux_none (raw : List RawEntry) (i : Nat) :
    hbAux none raw i = specHoursBetween raw i := by
  cases i with
  | zero =>
    simp only [hbAux, specHoursBetween]
    cases hr : raw[0]? <;> rfl
  | succ j => rfl

/-- The normalizer's loop emits one record per entry. -/
lemma createForecastGo_length (raw : List RawEntry) :
    ∀ p, (createForecastGo p raw).length = raw.length := by
  induction raw with
  | nil => intro p; rfl
  | cons e rest ih => intro p; simp [createForecastGo, ih]

/-- Indexed description of the normalizer's loop: the i-th output is the
record for the i-th entry, divided by the cursor-derived divisor. -/
lemma createForecastGo_get (raw : List RawEntry) :
    ∀ (p : Option PyTime) (i : Nat) (e : RawEntry), raw[i]? = some e →
      (createForecastGo p raw)[i]? = some (mkForecastRecord e (hbAux p raw i)) := by
  induction raw with
  | nil => intro p i e h; simp at h
  | cons e0 rest ih =>
    intro p i e h
    cases i with
    | zero =>
      simp only [List.getElem?_cons_zero, Option.some.injEq] at h
      subst h
      rw [show createForecastGo p (e0 :: rest) =
          mkForecastRecord e0 (hbFromCursor p (some e0)) ::
            createForecastGo (some e0.validTime) rest
        from by cases p <;> rfl]
      rw [List.getElem?_cons_zero]
      simp only [hbAux, List.getElem?_cons_zero]
    | succ j =>
      simp only [List.getElem?_cons_succ] at h
      have := ih (some e0.validTime) j e h
      rw [hbAux_cons e0 rest p j] at this
      simpa [createForecastGo] using this

/-- C8: the normalizer emits exactly one record per raw entry in provider
order (no sorting): the i-th output record is the record built from the i-th
raw entry, whose four precipitation-rate fields are the raw accumulated
values divided by `hoursBetween` — the rounded hour distance between this
entry's timestamp and the previous entry's, defaulting to 1 for the first
entry. -/
theorem normalizer_one_to_one_and_rates (raw : List RawEntry) :
    (_create_forecast raw).length = raw.length ∧
    (∀ i e, raw[i]? = some e →
      (_create_forecast raw)[i]? = some (mkForecastRecord e (specHoursBetween raw i)) ∧
      (mkForecastRecord e (specHoursBetween raw i)).valid_time = e.validTime ∧
      (mkForecastRecord e (specHoursBetween raw i)).min_precipitation =
        dictLookup e.params "pmin" / (specHoursBetween raw i : ℚ) ∧
      (mkForecastRecord e (specHoursBetween raw i)).mean_precipitation =
        dictLookup e.params "pmean" / (specHoursBetween raw i : ℚ) ∧
      (mkForecastRecord e (specHoursBetween raw i)).median_precipitation =
        dictLookup e.params "pmedian" / (specHoursBetween raw i : ℚ) ∧
      (mkForecastRecord e (specHoursBetween raw i)).max_precipitation =
        dictLookup e.params "pmax" / (specHoursBetween raw i : ℚ)) := by
  refine ⟨createForecastGo_length raw none, ?_⟩
  intro i e h
  refine ⟨?_, rfl, rfl, rfl, rfl, rfl⟩
  rw [← hbAux_none]
  exact createForecastGo_get raw none i e h

/-- Witness for C8 at a two-entry series three hours apart (divisor 3 for
the second entry). -/
theorem normalizer_one_to_one_and_rates_witness :
    (_create_forecast [exEntryA, exEntryB])[1]? =
      some (mkForecastRecord exEntryB (specHoursBetween [exEntryA, exEntryB] 1)) ∧
    (mkForecastRecord exEntryB (specHoursBetween [exEntryA, exEntryB] 1)).mean_precipitation =
      dictLookup exEntryB.params "pmean" / (specHoursBetween [exEntryA, exEntryB] 1 : ℚ) :=
  ⟨((normalizer_one_to_one_and_rates [exEntryA, exEntryB]).2 1 exEntryB rfl).1,
   ((normalizer_one_to_one_and_rates [exEntryA, exEntryB]).2 1 exEntryB rfl).2.2.2.1⟩
